import Mathlib

/-!
Shallow embedding of the Sentinel-2 atmospheric-correction notebook
(`Sentinel2_Atmcorr.ipynb`).  Rasters are modelled pointwise: a multi-band
raster is a map from band name to the pixel value (`String → ℝ`), so all
Earth Engine pointwise operations (`select`, `multiply`, `subtract`,
`divide`) become plain real arithmetic on the selected pixel.  Earth
Engine's `divide` is documented to return 0 on division by zero, which
coincides with Lean's convention for real division.  `math.cos`,
`math.radians` and `math.pi` are the real functions, so the real-valued
definitions live in a noncomputable section.
-/

namespace S2AC

/-! ## Python datetime model (`datetime.datetime.utcfromtimestamp`) -/

/-- A UTC calendar date-time, as produced by Python's
`datetime.datetime.utcfromtimestamp`. -/
structure Datetime where
  year : ℤ
  month : ℕ
  day : ℕ
  hour : ℕ
  minute : ℕ
  second : ℕ
  deriving Repr, DecidableEq

/-- Proleptic-Gregorian civil date from a count of days since 1970-01-01
(the standard `civil_from_days` algorithm); models the calendar part of
Python's `utcfromtimestamp`. -/
def civilFromDays (z0 : ℤ) : ℤ × ℕ × ℕ :=
  let z := z0 + 719468
  let era : ℤ := (if 0 ≤ z then z else z - 146096) / 146097
  let doe : ℕ := (z - era * 146097).toNat
  let yoe : ℕ := (doe - doe / 1460 + doe / 36524 - doe / 146096) / 365
  let y : ℤ := (yoe : ℤ) + era * 400
  let doy : ℕ := doe - (365 * yoe + yoe / 4 - yoe / 100)
  let mp : ℕ := (5 * doy + 2) / 153
  let d : ℕ := doy - (153 * mp + 2) / 5 + 1
  let m : ℕ := if mp < 10 then mp + 3 else mp - 9
  (y + (if m ≤ 2 then 1 else 0), m, d)

/-- Python `datetime.datetime.utcfromtimestamp` for a non-negative epoch
second count: interprets the timestamp in UTC. -/
def utcfromtimestamp (secs : ℕ) : Datetime :=
  let days := secs / 86400
  let rem := secs % 86400
  let c := civilFromDays (days : ℤ)
  { year := c.1, month := c.2.1, day := c.2.2
    hour := rem / 3600, minute := rem % 3600 / 60, second := rem % 60 }

/-- `scene_date = datetime.datetime.utcfromtimestamp(info['system:time_start']/1000)`
(Earth Engine timestamps are in milliseconds). -/
def scene_date (time_start : ℕ) : Datetime :=
  utcfromtimestamp (time_start / 1000)

/-- Gregorian leap-year test, for `timetuple().tm_yday`. -/
def isLeap (y : ℤ) : Bool :=
  y % 4 == 0 && (y % 100 != 0 || y % 400 == 0)

/-- Cumulative day count before the first day of month `m` in a common
year (1-based months). -/
def daysBeforeMonth (m : ℕ) : ℕ :=
  match m with
  | 1 => 0 | 2 => 31 | 3 => 59 | 4 => 90 | 5 => 120 | 6 => 151
  | 7 => 181 | 8 => 212 | 9 => 243 | 10 => 273 | 11 => 304 | 12 => 334
  | _ => 0

/-- Python `scene_date.timetuple().tm_yday`: 1-based day of year. -/
def tm_yday (dt : Datetime) : ℕ :=
  daysBeforeMonth dt.month + (if 2 < dt.month ∧ isLeap dt.year then 1 else 0) + dt.day

/-! ## Py6S spectral-response model (`spectralResponseFunction`) -/

/-- The predefined Sentinel-2A spectral response handles of Py6S that the
notebook's `bandSelect` dictionary references. -/
inductive PredefinedWavelengths where
  | S2A_MSI_01 | S2A_MSI_02 | S2A_MSI_03 | S2A_MSI_04
  | S2A_MSI_05 | S2A_MSI_06 | S2A_MSI_07 | S2A_MSI_08
  | S2A_MSI_09 | S2A_MSI_10 | S2A_MSI_11 | S2A_MSI_12
  deriving Repr, DecidableEq

/-- Py6S `Wavelength(...)` wrapper around a predefined response handle. -/
structure Wavelength where
  response : PredefinedWavelengths
  deriving Repr, DecidableEq

/-- Python exceptions that the embedded notebook code can raise. -/
inductive PyErr where
  | keyError (key : String)
  deriving Repr, DecidableEq

/-- The `bandSelect` dictionary of `spectralResponseFunction`, as an
association list in insertion order. -/
def bandSelect : List (String × PredefinedWavelengths) :=
  [("B1", .S2A_MSI_01), ("B2", .S2A_MSI_02), ("B3", .S2A_MSI_03),
   ("B4", .S2A_MSI_04), ("B5", .S2A_MSI_05), ("B6", .S2A_MSI_06),
   ("B7", .S2A_MSI_07), ("B8", .S2A_MSI_08), ("B9", .S2A_MSI_09),
   ("B10", .S2A_MSI_10), ("B11", .S2A_MSI_11), ("B12", .S2A_MSI_12)]

/-- `spectralResponseFunction(bandname)`: unguarded dictionary lookup
`bandSelect[bandname]` wrapped in `Wavelength(...)`; a missing key raises
`KeyError(bandname)`. -/
def spectralResponseFunction (bandname : String) : Except PyErr Wavelength :=
  match bandSelect.lookup bandname with
  | some w => .ok ⟨w⟩
  | none => .error (.keyError bandname)

/-! ## SixS configuration object -/

/-- Py6S `AtmosProfile.UserWaterAndOzone(h2o, o3)`. -/
structure AtmosProfileT where
  water : ℝ
  ozone : ℝ

/-- Py6S aerosol profiles (the notebook uses `Continental`). -/
inductive AeroProfileT where
  | Continental
  deriving Repr, DecidableEq

/-- Py6S `Geometry.User()` with the fields the notebook sets. -/
structure GeometryUser where
  view_z : ℝ
  solar_z : ℝ
  month : ℕ
  day : ℕ

/-- Py6S altitudes: `set_sensor_satellite_level()` and
`set_target_custom_altitude(km)`. -/
structure AltitudesT where
  sensor_satellite_level : Bool
  target_custom_altitude : Option ℝ

/-- The 6S solver outputs read by `surface_reflectance`. -/
structure SixSOutputs where
  direct_solar_irradiance : ℝ
  diffuse_solar_irradiance : ℝ
  atmospheric_intrinsic_radiance : ℝ
  trans_global_gas_upward : ℝ
  trans_total_scattering_upward : ℝ

/-- The mutable `SixS` instance `s`: configuration fields, the per-band
wavelength, and the outputs of the last `run()`. -/
structure SixS where
  atmos_profile : AtmosProfileT
  aero_profile : AeroProfileT
  aot550 : ℝ
  geometry : GeometryUser
  altitudes : AltitudesT
  wavelength : Option Wavelength
  outputs : Option SixSOutputs

/-- The notebook's 6S setup cell: atmospheric constituents, Earth-Sun-satellite
geometry (view zenith fixed at nadir 0, month/day from `scene_date`), and
altitudes. -/
def buildSixS (h2o o3 aot solar_z : ℝ) (sd : Datetime) (km : ℝ) : SixS :=
  { atmos_profile := ⟨h2o, o3⟩
    aero_profile := .Continental
    aot550 := aot
    geometry := { view_z := 0, solar_z := solar_z, month := sd.month, day := sd.day }
    altitudes := { sensor_satellite_level := true, target_custom_altitude := some km }
    wavelength := none
    outputs := none }

/-! ## Radiance converter and reflectance inverter -/

noncomputable section

/-- Python `math.radians`. -/
def radians (x : ℝ) : ℝ := x * Real.pi / 180

/-- The Earth-Sun distance expression of `toa_to_rad`:
`d = 1 - 0.01672 * math.cos(0.9856 * (doy - 4))`. -/
def earthSunDistance (doy : ℕ) : ℝ :=
  1 - 0.01672 * Real.cos (0.9856 * ((doy : ℝ) - 4))

/-- The conversion factor of `toa_to_rad`:
`multiplier = ESUN * solar_angle_correction / (math.pi * d ** 2)` with
`solar_angle_correction = math.cos(math.radians(solar_z))`. -/
def multiplier (esun solar_z : ℝ) (doy : ℕ) : ℝ :=
  esun * Real.cos (radians solar_z) / (Real.pi * earthSunDistance doy ^ 2)

/-- `toa_to_rad(bandname)`: per-pixel at-sensor radiance.  `info` is the
scene-property map (`ESUN = info['SOLAR_IRRADIANCE_' + bandname]`), `toa`
the top-of-atmosphere reflectance raster, and the day of year comes from
`scene_date.timetuple().tm_yday`. -/
def toa_to_rad (info : String → ℝ) (solar_z : ℝ) (sd : Datetime)
    (toa : String → ℝ) (bandname : String) : ℝ :=
  toa bandname * multiplier (info ("SOLAR_IRRADIANCE_" ++ bandname)) solar_z (tm_yday sd)

/-- `surface_reflectance(bandname)`: sets `s.wavelength`, runs 6S
(modelled by the opaque solver `run6S`, which records its outputs in
`s.outputs`), and inverts the radiance.  A `KeyError` from the spectral
lookup propagates and leaves `s` unchanged.  Returns the per-pixel result
together with the mutated `SixS` state. -/
def surface_reflectance (run6S : SixS → SixSOutputs) (info : String → ℝ)
    (solar_z : ℝ) (sd : Datetime) (toa : String → ℝ) (s : SixS)
    (bandname : String) : Except PyErr ℝ × SixS :=
  match spectralResponseFunction bandname with
  | .error e => (.error e, s)
  | .ok w =>
    let s1 : SixS := { s with wavelength := some w }
    let out := run6S s1
    let s2 : SixS := { s1 with outputs := some out }
    let Edir := out.direct_solar_irradiance
    let Edif := out.diffuse_solar_irradiance
    let Lp := out.atmospheric_intrinsic_radiance
    let absorb := out.trans_global_gas_upward
    let scatter := out.trans_total_scattering_upward
    let tau2 := absorb * scatter
    let rad := toa_to_rad info solar_z sd toa bandname
    (.ok ((rad - Lp) * Real.pi / (tau2 * (Edir + Edif))), s2)

/-- The forward radiance model stated in the notebook's markdown:
`L = tau * rho * (Edir + Edif) / pi + Lp`. -/
def forwardRadiance (out : SixSOutputs) (rho : ℝ) : ℝ :=
  out.trans_global_gas_upward * out.trans_total_scattering_upward * rho *
      (out.direct_solar_irradiance + out.diffuse_solar_irradiance) / Real.pi +
    out.atmospheric_intrinsic_radiance

end

/-! ## Band compositor (`ref = r.addBands(g).addBands(b)`) -/

/-- Earth Engine `addBands`: the bands of the argument are appended after
the bands of the receiver.  An image is its ordered list of named bands. -/
def addBands (img other : List (String × ℝ)) : List (String × ℝ) :=
  img ++ other

/-- The correction cell: `surface_reflectance` is invoked for `'B2'`,
then `'B3'`, then `'B4'` (binding `b`, `g`, `r`). -/
def scriptCorrectionOrder : List String := ["B2", "B3", "B4"]

/-- The compositing cell `ref = r.addBands(g).addBands(b)`, abstracted
over the single-band image each correction produced (`sr bandname` is the
corrected raster of that band, which keeps its band name). -/
def scriptComposite (sr : String → List (String × ℝ)) : List (String × ℝ) :=
  let b := sr "B2"
  let g := sr "B3"
  let r := sr "B4"
  addBands (addBands r g) b

/-! ## Concrete sample inputs (for witnesses and counterexamples) -/

/-- Sample solver outputs (the spec's end-to-end scenario values). -/
def out0 : SixSOutputs :=
  { direct_solar_irradiance := 800
    diffuse_solar_irradiance := 100
    atmospheric_intrinsic_radiance := 5
    trans_global_gas_upward := 0.9
    trans_total_scattering_upward := 0.95 }

/-- Sample solver outputs with zero gas transmissivity (degenerate). -/
def outDeg : SixSOutputs :=
  { direct_solar_irradiance := 800
    diffuse_solar_irradiance := 100
    atmospheric_intrinsic_radiance := 5
    trans_global_gas_upward := 0
    trans_total_scattering_upward := 0.95 }

/-- A sample UTC date (2017-01-01, the spec's scenario date). -/
def date0 : Datetime :=
  { year := 2017, month := 1, day := 1, hour := 0, minute := 0, second := 0 }

/-- A sample fully-configured `SixS` state. -/
def s0 : SixS := buildSixS 2 0.3 0.1 30 date0 0.05

/-- Sample solver outputs with zero direct and diffuse irradiance
(degenerate in the other factor of the denominator). -/
def outDeg2 : SixSOutputs :=
  { direct_solar_irradiance := 0
    diffuse_solar_irradiance := 0
    atmospheric_intrinsic_radiance := 5
    trans_global_gas_upward := 0.9
    trans_total_scattering_upward := 0.95 }

/-! ## Theorems -/

/-- Claim C3: for every band and pixel reflectance value, `toa_to_rad`
returns `r * ESUN * cos(solar zenith in radians) / (pi * d^2)` with
`d = 1 - 0.01672 * cos(0.9856 * (dayOfYear - 4))` and `dayOfYear` the
1-based day of year of the scene's acquisition timestamp. -/
theorem toa_to_rad_formula (info : String → ℝ) (z : ℝ) (ts : ℕ)
    (toa : String → ℝ) (band : String) :
    toa_to_rad info z (scene_date ts) toa band =
      toa band * info ("SOLAR_IRRADIANCE_" ++ band) *
          Real.cos (z * Real.pi / 180) /
        (Real.pi *
          (1 - 0.01672 *
            Real.cos (0.9856 * ((tm_yday (scene_date ts) : ℝ) - 4))) ^ 2) := by
  unfold toa_to_rad multiplier earthSunDistance radians
  ring

/-- Claim C7: the 6S configuration cell fixes the sensor view zenith at
nadir (0°), and the month and day written into the solver geometry are
the UTC calendar month and day of the scene's acquisition timestamp. -/
theorem buildSixS_geometry (ts : ℕ) (h2o o3 aot z km : ℝ) :
    (buildSixS h2o o3 aot z (scene_date ts) km).geometry.view_z = 0 ∧
    (buildSixS h2o o3 aot z (scene_date ts) km).geometry.month =
      (utcfromtimestamp (ts / 1000)).month ∧
    (buildSixS h2o o3 aot z (scene_date ts) km).geometry.day =
      (utcfromtimestamp (ts / 1000)).day :=
  ⟨rfl, rfl, rfl⟩

/-- Claim C8: for every day of year in `[1, 366]` the Earth-Sun distance
`1 - 0.01672 * cos(0.9856 * (doy - 4))` lies in `[0.983, 1.017]`. -/
theorem earthSunDistance_bounds (doy : ℕ) (h1 : 1 ≤ doy) (h2 : doy ≤ 366) :
    0.983 ≤ earthSunDistance doy ∧ earthSunDistance doy ≤ 1.017 := by
  have hc1 := Real.neg_one_le_cos (0.9856 * ((doy : ℝ) - 4))
  have hc2 := Real.cos_le_one (0.9856 * ((doy : ℝ) - 4))
  unfold earthSunDistance
  constructor <;> nlinarith

/-- Witness for claim C8 at day of year 1. -/
theorem earthSunDistance_bounds_witness :
    1 ≤ 1 ∧ 1 ≤ 366 ∧
      (0.983 ≤ earthSunDistance 1 ∧ earthSunDistance 1 ≤ 1.017) :=
  ⟨by norm_num, by norm_num, earthSunDistance_bounds 1 (by norm_num) (by norm_num)⟩

/-- Claim C9: a per-band `surface_reflectance` run leaves every solver
configuration field except the wavelength (and the recorded outputs)
unchanged: atmospheric profile, aerosol profile, aot550, geometry
(view/solar zenith, month, day) and altitudes are preserved. -/
theorem surface_reflectance_frame (run6S : SixS → SixSOutputs)
    (info : String → ℝ) (z : ℝ) (sd : Datetime) (toa : String → ℝ)
    (s : SixS) (band : String) :
    (surface_reflectance run6S info z sd toa s band).2.atmos_profile =
        s.atmos_profile ∧
    (surface_reflectance run6S info z sd toa s band).2.aero_profile =
        s.aero_profile ∧
    (surface_reflectance run6S info z sd toa s band).2.aot550 = s.aot550 ∧
    (surface_reflectance run6S info z sd toa s band).2.geometry = s.geometry ∧
    (surface_reflectance run6S info z sd toa s band).2.altitudes =
        s.altitudes := by
  cases h : spectralResponseFunction band <;>
    simp [surface_reflectance, h]

/-- Counterexample to claim C6: the script corrects bands in the order
B2, B3, B4, but the composite `r.addBands(g).addBands(b)` stacks them as
B4, B3, B2 — not the correction-invocation order. -/
theorem scriptComposite_order_counterexample :
    (scriptComposite fun n => [(n, (0 : ℝ))]).map Prod.fst =
        ["B4", "B3", "B2"] ∧
      ["B4", "B3", "B2"] ≠ scriptCorrectionOrder := by
  constructor
  · rfl
  · decide

/-- Claim C6 (amended): `addBands` preserves the order of its arguments
(receiver's bands first, then the argument's), so the script's composite
band order is the order the rasters are passed — B4, B3, B2 — which is
the reverse of the correction-invocation order. -/
theorem addBands_order :
    (∀ (a b : List (String × ℝ)),
        (addBands a b).map Prod.fst = a.map Prod.fst ++ b.map Prod.fst) ∧
    (∀ sr : String → ℝ,
        (scriptComposite fun n => [(n, sr n)]).map Prod.fst =
          scriptCorrectionOrder.reverse) := by
  constructor
  · intro a b
    simp [addBands]
  · intro sr
    rfl

/-- Claim C10: the spectral-response lookup succeeds exactly on the
twelve keys B1..B12, returning the corresponding predefined Sentinel-2A
wavelength, and raises `KeyError` on every other band name. -/
theorem spectralResponseFunction_spec (name : String) :
    (name ∉ ["B1", "B2", "B3", "B4", "B5", "B6", "B7", "B8", "B9", "B10",
        "B11", "B12"] →
      spectralResponseFunction name = .error (.keyError name)) ∧
    spectralResponseFunction "B1" = .ok ⟨.S2A_MSI_01⟩ ∧
    spectralResponseFunction "B2" = .ok ⟨.S2A_MSI_02⟩ ∧
    spectralResponseFunction "B3" = .ok ⟨.S2A_MSI_03⟩ ∧
    spectralResponseFunction "B4" = .ok ⟨.S2A_MSI_04⟩ ∧
    spectralResponseFunction "B5" = .ok ⟨.S2A_MSI_05⟩ ∧
    spectralResponseFunction "B6" = .ok ⟨.S2A_MSI_06⟩ ∧
    spectralResponseFunction "B7" = .ok ⟨.S2A_MSI_07⟩ ∧
    spectralResponseFunction "B8" = .ok ⟨.S2A_MSI_08⟩ ∧
    spectralResponseFunction "B9" = .ok ⟨.S2A_MSI_09⟩ ∧
    spectralResponseFunction "B10" = .ok ⟨.S2A_MSI_10⟩ ∧
    spectralResponseFunction "B11" = .ok ⟨.S2A_MSI_11⟩ ∧
    spectralResponseFunction "B12" = .ok ⟨.S2A_MSI_12⟩ := by
  refine ⟨?_, rfl, rfl, rfl, rfl, rfl, rfl, rfl, rfl, rfl, rfl, rfl, rfl⟩
  intro h
  simp only [List.mem_cons, List.not_mem_nil, or_false, not_or] at h
  obtain ⟨h1, h2, h3, h4, h5, h6, h7, h8, h9, h10, h11, h12⟩ := h
  simp [spectralResponseFunction, bandSelect, List.lookup,
    beq_eq_false_iff_ne.mpr h1, beq_eq_false_iff_ne.mpr h2,
    beq_eq_false_iff_ne.mpr h3, beq_eq_false_iff_ne.mpr h4,
    beq_eq_false_iff_ne.mpr h5, beq_eq_false_iff_ne.mpr h6,
    beq_eq_false_iff_ne.mpr h7, beq_eq_false_iff_ne.mpr h8,
    beq_eq_false_iff_ne.mpr h9, beq_eq_false_iff_ne.mpr h10,
    beq_eq_false_iff_ne.mpr h11, beq_eq_false_iff_ne.mpr h12]

/-- Claim C2: for every band with a valid spectral lookup,
`surface_reflectance` computes the total upward transmissivity as the
product of the gas-absorption and scattering transmissivities, takes the
at-sensor radiance from `toa_to_rad`, and returns
`pi * (L - Lp) / (tau * (Edir + Edif))` per pixel. -/
theorem surface_reflectance_formula (run6S : SixS → SixSOutputs)
    (info : String → ℝ) (z : ℝ) (sd : Datetime) (toa : String → ℝ)
    (s : SixS) (band : String) (w : Wavelength)
    (hw : spectralResponseFunction band = .ok w) :
    (surface_reflectance run6S info z sd toa s band).1 =
      .ok (Real.pi *
          (toa_to_rad info z sd toa band -
            (run6S { s with wavelength := some w }).atmospheric_intrinsic_radiance) /
        ((run6S { s with wavelength := some w }).trans_global_gas_upward *
            (run6S { s with wavelength := some w }).trans_total_scattering_upward *
          ((run6S { s with wavelength := some w }).direct_solar_irradiance +
            (run6S { s with wavelength := some w }).diffuse_solar_irradiance))) := by
  simp only [surface_reflectance, hw]
  congr 1
  ring

/-- Witness for claim C2 at the concrete scenario inputs (band B2). -/
theorem surface_reflectance_formula_witness :
    spectralResponseFunction "B2" = .ok ⟨.S2A_MSI_02⟩ ∧
    (surface_reflectance (fun _ => out0) (fun _ => 1959) 30 date0
        (fun _ => 0.2) s0 "B2").1 =
      .ok (Real.pi *
          (toa_to_rad (fun _ => 1959) 30 date0 (fun _ => 0.2) "B2" -
            out0.atmospheric_intrinsic_radiance) /
        (out0.trans_global_gas_upward * out0.trans_total_scattering_upward *
          (out0.direct_solar_irradiance + out0.diffuse_solar_irradiance))) :=
  ⟨rfl, surface_reflectance_formula (fun _ => out0) (fun _ => 1959) 30 date0
    (fun _ => 0.2) s0 "B2" ⟨.S2A_MSI_02⟩ rfl⟩

/-- Claim C1: for every band with a valid spectral lookup, composing the
notebook's forward radiance model `L = tau * rho * (Edir + Edif) / pi + Lp`
(fed through `toa_to_rad`'s conversion factor) with the inversion in
`surface_reflectance` recovers the surface reflectance exactly, for any
solar zenith in `[0, 90)`, positive solar irradiance constant and nonzero
`tau * (Edir + Edif)`. -/
theorem roundtrip (out : SixSOutputs) (z ρ esun : ℝ) (ts : ℕ) (s : SixS)
    (band : String) (w : Wavelength)
    (hw : spectralResponseFunction band = .ok w)
    (hz0 : 0 ≤ z) (hz1 : z < 90) (he : 0 < esun)
    (hτ : out.trans_global_gas_upward * out.trans_total_scattering_upward *
        (out.direct_solar_irradiance + out.diffuse_solar_irradiance) ≠ 0) :
    (surface_reflectance (fun _ => out) (fun _ => esun) z (scene_date ts)
        (fun _ => forwardRadiance out ρ /
          multiplier esun z (tm_yday (scene_date ts))) s band).1 = .ok ρ := by
  have hπ := Real.pi_pos
  have hcos : 0 < Real.cos (radians z) := by
    apply Real.cos_pos_of_mem_Ioo
    constructor
    · unfold radians
      nlinarith
    · unfold radians
      nlinarith
  have hd : 0 < earthSunDistance (tm_yday (scene_date ts)) := by
    have := Real.cos_le_one (0.9856 * ((tm_yday (scene_date ts) : ℝ) - 4))
    unfold earthSunDistance
    nlinarith
  have hm : multiplier esun z (tm_yday (scene_date ts)) ≠ 0 := by
    unfold multiplier
    exact ne_of_gt (div_pos (mul_pos he hcos) (mul_pos hπ (pow_pos hd 2)))
  simp only [surface_reflectance, hw, toa_to_rad]
  rw [div_mul_cancel₀ _ hm]
  unfold forwardRadiance
  rw [add_sub_cancel_right, div_mul_cancel₀ _ (ne_of_gt hπ)]
  rw [show out.trans_global_gas_upward * out.trans_total_scattering_upward *
      ρ * (out.direct_solar_irradiance + out.diffuse_solar_irradiance) =
      ρ * (out.trans_global_gas_upward * out.trans_total_scattering_upward *
        (out.direct_solar_irradiance + out.diffuse_solar_irradiance)) from by
    ring]
  rw [mul_div_assoc, div_self hτ, mul_one]

/-- Witness for claim C1 at the spec's end-to-end scenario values
(band B2). -/
theorem roundtrip_witness :
    spectralResponseFunction "B2" = .ok ⟨.S2A_MSI_02⟩ ∧
    (0 : ℝ) ≤ 30 ∧ (30 : ℝ) < 90 ∧ (0 : ℝ) < 1959 ∧
    out0.trans_global_gas_upward * out0.trans_total_scattering_upward *
        (out0.direct_solar_irradiance + out0.diffuse_solar_irradiance) ≠ 0 ∧
    (surface_reflectance (fun _ => out0) (fun _ => 1959) 30 (scene_date 0)
        (fun _ => forwardRadiance out0 0.2 /
          multiplier 1959 30 (tm_yday (scene_date 0))) s0 "B2").1 = .ok 0.2 :=
  ⟨rfl, by norm_num, by norm_num, by norm_num, by norm_num [out0],
    roundtrip out0 30 0.2 1959 0 s0 "B2" ⟨.S2A_MSI_02⟩ rfl (by norm_num)
      (by norm_num) (by norm_num) (by norm_num [out0])⟩

/-- Counterexample to claim C4: with zero gas transmissivity,
`surface_reflectance` raises no error; the division by the zero
denominator yields zero, so the band output is silently coerced to the
zero raster. -/
theorem degenerate_division_counterexample :
    (surface_reflectance (fun _ => outDeg) (fun _ => 1959) 30 date0
        (fun _ => 0.2) s0 "B2").1 = .ok 0 := by
  have hB2 : spectralResponseFunction "B2" = .ok ⟨.S2A_MSI_02⟩ := rfl
  simp [surface_reflectance, hB2, outDeg]

/-- Claim C4 (amended): when `tau * (Edir + Edif)` is zero the inversion
raises no error for any radiance and path radiance: it divides anyway,
and the division by zero produces the zero raster. -/
theorem degenerate_division (run6S : SixS → SixSOutputs) (info : String → ℝ)
    (z : ℝ) (sd : Datetime) (toa : String → ℝ) (s : SixS) (band : String)
    (w : Wavelength) (hw : spectralResponseFunction band = .ok w)
    (hτ : (run6S { s with wavelength := some w }).trans_global_gas_upward *
        (run6S { s with wavelength := some w }).trans_total_scattering_upward *
        ((run6S { s with wavelength := some w }).direct_solar_irradiance +
          (run6S { s with wavelength := some w }).diffuse_solar_irradiance) = 0) :
    (surface_reflectance run6S info z sd toa s band).1 = .ok 0 := by
  simp only [surface_reflectance, hw]
  rw [hτ]
  simp

/-- Witness for claim C4 (amended) with zero total irradiance (band B3). -/
theorem degenerate_division_witness :
    spectralResponseFunction "B3" = .ok ⟨.S2A_MSI_03⟩ ∧
    outDeg2.trans_global_gas_upward * outDeg2.trans_total_scattering_upward *
        (outDeg2.direct_solar_irradiance + outDeg2.diffuse_solar_irradiance) = 0 ∧
    (surface_reflectance (fun _ => outDeg2) (fun _ => 1959) 30 date0
        (fun _ => 0.2) s0 "B3").1 = .ok 0 :=
  ⟨rfl, by norm_num [outDeg2],
    degenerate_division (fun _ => outDeg2) (fun _ => 1959) 30 date0
      (fun _ => 0.2) s0 "B3" ⟨.S2A_MSI_03⟩ rfl (by norm_num [outDeg2])⟩

/-- Counterexample to claim C5: at a solar zenith of exactly 90 degrees
`toa_to_rad` does not fail; it returns a radiance raster (here the zero
raster, since `cos(90°) = 0`). -/
theorem toa_to_rad_at_90_counterexample :
    toa_to_rad (fun _ => 1959) 90 date0 (fun _ => 0.2) "B2" = 0 := by
  have h : radians 90 = Real.pi / 2 := by
    unfold radians
    ring
  simp [toa_to_rad, multiplier, h, Real.cos_pi_div_two]

/-- Claim C5 (amended): `toa_to_rad` performs no solar-geometry
validation: for any zenith angle in `[90°, 270°]` it still returns the
radiance raster `r * multiplier`, with a nonpositive conversion factor
(zero at exactly 90°). -/
theorem toa_to_rad_no_geometry_check (info : String → ℝ) (z : ℝ)
    (sd : Datetime) (toa : String → ℝ) (band : String)
    (h90 : 90 ≤ z) (h270 : z ≤ 270)
    (hE : 0 ≤ info ("SOLAR_IRRADIANCE_" ++ band)) :
    toa_to_rad info z sd toa band =
      toa band * multiplier (info ("SOLAR_IRRADIANCE_" ++ band)) z (tm_yday sd) ∧
    multiplier (info ("SOLAR_IRRADIANCE_" ++ band)) z (tm_yday sd) ≤ 0 := by
  refine ⟨rfl, ?_⟩
  have hπ := Real.pi_pos
  have h1 : Real.pi / 2 ≤ radians z := by
    unfold radians
    nlinarith
  have h2 : radians z ≤ Real.pi + Real.pi / 2 := by
    unfold radians
    nlinarith
  have hcos : Real.cos (radians z) ≤ 0 :=
    Real.cos_nonpos_of_pi_div_two_le_of_le h1 h2
  have hnum : info ("SOLAR_IRRADIANCE_" ++ band) * Real.cos (radians z) ≤ 0 := by
    nlinarith
  have hden : (0 : ℝ) ≤ Real.pi * earthSunDistance (tm_yday sd) ^ 2 := by
    positivity
  unfold multiplier
  exact div_nonpos_iff.mpr (Or.inr ⟨hnum, hden⟩)

/-- Witness for claim C5 (amended) at a zenith of 90 degrees. -/
theorem toa_to_rad_no_geometry_check_witness :
    (90 : ℝ) ≤ 90 ∧ (90 : ℝ) ≤ 270 ∧ (0 : ℝ) ≤ 1959 ∧
    (toa_to_rad (fun _ => 1959) 90 date0 (fun _ => 0.2) "B2" =
        0.2 * multiplier 1959 90 (tm_yday date0) ∧
      multiplier 1959 90 (tm_yday date0) ≤ 0) :=
  ⟨by norm_num, by norm_num, by norm_num,
    toa_to_rad_no_geometry_check (fun _ => 1959) 90 date0 (fun _ => 0.2) "B2"
      (by norm_num) (by norm_num) (by norm_num)⟩

/-- Witness for claim C10 at the non-key band name "B8A". -/
theorem spectralResponseFunction_spec_witness :
    "B8A" ∉ ["B1", "B2", "B3", "B4", "B5", "B6", "B7", "B8", "B9", "B10",
        "B11", "B12"] ∧
      spectralResponseFunction "B8A" = .error (.keyError "B8A") :=
  ⟨by decide, (spectralResponseFunction_spec "B8A").1 (by decide)⟩

end S2AC
